import Mathlib

/-!
Shallow embedding of the Kinetic Core Engine (src/services/KineticEngine.ts).

JavaScript numbers are modelled as exact rationals (ℚ); timestamps are ℚ
milliseconds.  `Math.random()`-driven index choices are modelled by an explicit
`rng : ℕ` parameter: the chosen index is `rng % length`, which ranges over all
indices of a non-empty list and yields no element exactly when the list is
empty (matching `arr[Math.floor(Math.random()*arr.length)]`, which is
`undefined` on an empty array).  `Date.now()` is passed explicitly as `now`.
-/

-- ## Frame and audio data model (from src/services/KineticEngine.ts and ../types usage)

inductive EnergyLevel
| low
| mid
| high
deriving DecidableEq

inductive MoveDirection
| left
| right
| center
deriving DecidableEq

inductive FrameType
| body
| closeup
| hands
| feet
deriving DecidableEq

inductive FrameRole
| base
| alt
| flourish
| details
deriving DecidableEq

/-- Frame descriptor (`GeneratedFrame` of ../types as used by the engine).
`mandalaPose` models the boolean `frame.pose.includes("mandala")`;
`id` stands for the opaque pose/url identity. -/
structure GeneratedFrame where
  id : Nat
  energy : Option EnergyLevel
  direction : Option MoveDirection
  ftype : FrameType
  mandalaPose : Bool
  role : FrameRole
  isVirtual : Bool
deriving DecidableEq

structure AudioSample where
  bass : ℚ
  mid : ℚ
  high : ℚ
  energy : ℚ
  timestamp : ℚ
deriving DecidableEq

structure KineticFramePool where
  byEnergyLow : List GeneratedFrame
  byEnergyMid : List GeneratedFrame
  byEnergyHigh : List GeneratedFrame
  closeups : List GeneratedFrame
  hands : List GeneratedFrame
  feet : List GeneratedFrame
  mandalas : List GeneratedFrame
  virtuals : List GeneratedFrame
  acrobatics : List GeneratedFrame
  byDirLeft : List GeneratedFrame
  byDirRight : List GeneratedFrame
  byDirCenter : List GeneratedFrame
deriving DecidableEq

def emptyFramePool : KineticFramePool :=
  { byEnergyLow := [], byEnergyMid := [], byEnergyHigh := []
    closeups := [], hands := [], feet := [], mandalas := [], virtuals := []
    acrobatics := [], byDirLeft := [], byDirRight := [], byDirCenter := [] }

-- ## Node types

inductive KineticNodeId
| idle
| groove_left
| groove_right
| groove_center
| crouch
| jump
| spin
| vogue_left
| vogue_right
| closeup
| hands
| feet
| impact
| mandala
deriving DecidableEq

inductive MechanicalFX
| none
| zoom
| mirror
| stutter
| mandala
deriving DecidableEq

inductive TransitionStyle
| CUT
| SLIDE
| MORPH
| SMOOTH
| ZOOM_IN
deriving DecidableEq

inductive SequenceMode
| GROOVE
| EMOTE
| IMPACT
| FOOTWORK
deriving DecidableEq

structure KineticNode where
  id : KineticNodeId
  possibleTransitions : List KineticNodeId
  energyRequirement : ℚ
  exitThreshold : ℚ
  mechanicalFx : MechanicalFX
  preferredTransition : TransitionStyle
  minDuration : ℚ
  frameSelector : KineticFramePool → ℕ → Option GeneratedFrame

/-- JS `a || b` on possibly-missing frames. -/
def jsOr (a b : Option GeneratedFrame) : Option GeneratedFrame :=
  match a with
  | some x => some x
  | none => b

/-- Models `arr[Math.floor(Math.random() * arr.length)]` with the random draw
exposed as `rng`. -/
def pickRandom (l : List GeneratedFrame) (rng : ℕ) : Option GeneratedFrame :=
  l.get? (rng % l.length)

def KINETIC_GRAPH : KineticNodeId → KineticNode
| .idle =>
  { id := .idle
    possibleTransitions := [.groove_left, .groove_right, .groove_center, .crouch]
    energyRequirement := 0, exitThreshold := 0
    mechanicalFx := .none, preferredTransition := .SMOOTH, minDuration := 0
    frameSelector := fun pool _ => jsOr pool.byEnergyLow.head? pool.byEnergyMid.head? }
| .groove_left =>
  { id := .groove_left
    possibleTransitions := [.idle, .groove_center, .vogue_left, .crouch]
    energyRequirement := 0.3, exitThreshold := 0.2
    mechanicalFx := .none, preferredTransition := .CUT, minDuration := 100
    frameSelector := fun pool rng => jsOr (pickRandom pool.byDirLeft rng) pool.byEnergyMid.head? }
| .groove_right =>
  { id := .groove_right
    possibleTransitions := [.idle, .groove_center, .vogue_right, .crouch]
    energyRequirement := 0.3, exitThreshold := 0.2
    mechanicalFx := .mirror, preferredTransition := .CUT, minDuration := 100
    frameSelector := fun pool rng => jsOr (pickRandom pool.byDirRight rng) pool.byEnergyMid.head? }
| .groove_center =>
  { id := .groove_center
    possibleTransitions := [.groove_left, .groove_right, .jump, .spin, .closeup]
    energyRequirement := 0.4, exitThreshold := 0.3
    mechanicalFx := .none, preferredTransition := .CUT, minDuration := 150
    frameSelector := fun pool rng => jsOr (pickRandom pool.byDirCenter rng) pool.byEnergyMid.head? }
| .crouch =>
  { id := .crouch
    possibleTransitions := [.idle, .jump, .feet]
    energyRequirement := 0.5, exitThreshold := 0.3
    mechanicalFx := .none, preferredTransition := .SMOOTH, minDuration := 200
    frameSelector := fun pool rng => pickRandom pool.byEnergyLow rng }
| .jump =>
  { id := .jump
    possibleTransitions := [.crouch, .groove_center, .impact]
    energyRequirement := 0.7, exitThreshold := 0.5
    mechanicalFx := .zoom, preferredTransition := .CUT, minDuration := 100
    frameSelector := fun pool rng => jsOr (pickRandom pool.acrobatics rng) pool.byEnergyHigh.head? }
| .spin =>
  { id := .spin
    possibleTransitions := [.groove_center, .jump, .vogue_left, .vogue_right]
    energyRequirement := 0.6, exitThreshold := 0.4
    mechanicalFx := .none, preferredTransition := .MORPH, minDuration := 300
    frameSelector := fun pool rng => jsOr (pickRandom pool.acrobatics rng) pool.byEnergyHigh.head? }
| .vogue_left =>
  { id := .vogue_left
    possibleTransitions := [.vogue_right, .groove_left, .hands, .mandala]
    energyRequirement := 0.5, exitThreshold := 0.3
    mechanicalFx := .none, preferredTransition := .CUT, minDuration := 150
    frameSelector := fun pool rng => jsOr (pickRandom pool.hands rng) pool.byDirLeft.head? }
| .vogue_right =>
  { id := .vogue_right
    possibleTransitions := [.vogue_left, .groove_right, .hands, .mandala]
    energyRequirement := 0.5, exitThreshold := 0.3
    mechanicalFx := .mirror, preferredTransition := .CUT, minDuration := 150
    frameSelector := fun pool rng => jsOr (pickRandom pool.hands rng) pool.byDirRight.head? }
| .closeup =>
  { id := .closeup
    possibleTransitions := [.groove_center, .idle]
    energyRequirement := 0.6, exitThreshold := 0.4
    mechanicalFx := .zoom, preferredTransition := .ZOOM_IN, minDuration := 500
    frameSelector := fun pool rng => jsOr (pickRandom pool.closeups rng) pool.virtuals.head? }
| .hands =>
  { id := .hands
    possibleTransitions := [.vogue_left, .vogue_right, .mandala, .groove_center]
    energyRequirement := 0.5, exitThreshold := 0.3
    mechanicalFx := .none, preferredTransition := .CUT, minDuration := 200
    frameSelector := fun pool rng => pickRandom pool.hands rng }
| .feet =>
  { id := .feet
    possibleTransitions := [.crouch, .groove_left, .groove_right]
    energyRequirement := 0.4, exitThreshold := 0.2
    mechanicalFx := .none, preferredTransition := .CUT, minDuration := 200
    frameSelector := fun pool rng => pickRandom pool.feet rng }
| .impact =>
  { id := .impact
    possibleTransitions := [.groove_center, .crouch, .mandala]
    energyRequirement := 0.8, exitThreshold := 0.6
    mechanicalFx := .zoom, preferredTransition := .CUT, minDuration := 100
    frameSelector := fun pool rng => jsOr (pickRandom pool.virtuals rng) pool.byEnergyHigh.head? }
| .mandala =>
  { id := .mandala
    possibleTransitions := [.hands, .groove_center, .impact]
    energyRequirement := 0.7, exitThreshold := 0.5
    mechanicalFx := .mandala, preferredTransition := .CUT, minDuration := 300
    frameSelector := fun pool rng => jsOr (pickRandom pool.mandalas rng) pool.hands.head? }

-- ## Frame pool categorization (KineticEngine.loadFramePool, lines 567-623)

/-- Energy sorting block of the `loadFramePool` loop body. -/
def catEnergy (p : KineticFramePool) (f : GeneratedFrame) : KineticFramePool :=
  match f.energy with
  | some .low => { p with byEnergyLow := p.byEnergyLow ++ [f] }
  | some .mid => { p with byEnergyMid := p.byEnergyMid ++ [f] }
  | some .high => { p with byEnergyHigh := p.byEnergyHigh ++ [f] }
  | none => p

/-- Direction sorting block (`frame.direction || "center"`). -/
def catDirection (p : KineticFramePool) (f : GeneratedFrame) : KineticFramePool :=
  match f.direction with
  | some .left => { p with byDirLeft := p.byDirLeft ++ [f] }
  | some .right => { p with byDirRight := p.byDirRight ++ [f] }
  | some .center => { p with byDirCenter := p.byDirCenter ++ [f] }
  | none => { p with byDirCenter := p.byDirCenter ++ [f] }

/-- Type sorting block (closeups / hands+mandalas / feet). -/
def catType (p : KineticFramePool) (f : GeneratedFrame) : KineticFramePool :=
  match f.ftype with
  | .closeup => { p with closeups := p.closeups ++ [f] }
  | .hands =>
    let p1 := { p with hands := p.hands ++ [f] }
    if f.mandalaPose then { p1 with mandalas := p1.mandalas ++ [f] } else p1
  | .feet => { p with feet := p.feet ++ [f] }
  | .body => p

/-- Role sorting block (`role === "alt"` → acrobatics). -/
def catRole (p : KineticFramePool) (f : GeneratedFrame) : KineticFramePool :=
  if f.role = .alt then { p with acrobatics := p.acrobatics ++ [f] } else p

/-- Virtual-frame block (`frame.isVirtual` → virtuals). -/
def catVirtual (p : KineticFramePool) (f : GeneratedFrame) : KineticFramePool :=
  if f.isVirtual then { p with virtuals := p.virtuals ++ [f] } else p

/-- One iteration of the categorization loop of `loadFramePool`. -/
def categorizeFrame (p : KineticFramePool) (f : GeneratedFrame) : KineticFramePool :=
  catVirtual (catRole (catType (catDirection (catEnergy p f) f) f) f) f

/-- The body of `loadFramePool` as a pure function: reset, categorize, then the fallback
copies at the end of the method. -/
def buildFramePool (frames : List GeneratedFrame) : KineticFramePool :=
  let p := frames.foldl categorizeFrame emptyFramePool
  let p := if p.byEnergyLow.isEmpty then { p with byEnergyLow := p.byEnergyMid } else p
  let p := if p.byEnergyMid.isEmpty then { p with byEnergyMid := p.byEnergyLow } else p
  if p.byDirCenter.isEmpty then { p with byDirCenter := p.byEnergyMid } else p

-- ## BPM detector (BPMDetector, lines 256-349)

/-- Mutable fields of `BPMDetector` (the unread `threshold` field of the
source is omitted; `minInterval`/`maxInterval`/`maxBeats` are the constants
250 / 1500 / 32). -/
structure BPMDetector where
  beatTimes : List ℚ
  lastBeatTime : ℚ
  adaptiveThreshold : ℚ
  energyHistory : List ℚ
deriving DecidableEq

def BPMDetector.initial : BPMDetector :=
  { beatTimes := [], lastBeatTime := 0, adaptiveThreshold := 0.6, energyHistory := [] }

/-- Models `list.push(x)` followed by `if (list.length > cap) list.shift()`. -/
def pushCapped (l : List ℚ) (x : ℚ) (cap : Nat) : List ℚ :=
  let l := l ++ [x]
  if cap < l.length then l.tail else l

def listMax : List ℚ → ℚ
| [] => 0
| h :: t => t.foldl max h

def listMean (l : List ℚ) : ℚ := l.sum / l.length

def BPMDetector.detectBeat (d : BPMDetector) (bass timestamp : ℚ) : Bool × BPMDetector :=
  let eh := pushCapped d.energyHistory bass 60
  let thr :=
    if 10 < eh.length then listMean eh + (listMax eh - listMean eh) * 0.5
    else d.adaptiveThreshold
  let interval := timestamp - d.lastBeatTime
  if bass > thr ∧ interval > 250 then
    let bt := pushCapped d.beatTimes timestamp 32
    (true, { beatTimes := bt, lastBeatTime := timestamp, adaptiveThreshold := thr, energyHistory := eh })
  else
    (false, { d with adaptiveThreshold := thr, energyHistory := eh })

/-- Consecutive inter-beat intervals kept when inside `[250, 1500]`. -/
def survivingIntervals (beatTimes : List ℚ) : List ℚ :=
  ((beatTimes.zip beatTimes.tail).map fun p => p.2 - p.1).filter
    fun iv => 250 ≤ iv ∧ iv ≤ 1500

def insertSorted (x : ℚ) : List ℚ → List ℚ
| [] => [x]
| h :: t => if x ≤ h then x :: h :: t else h :: insertSorted x t

/-- Ascending sort, `intervals.sort((a, b) => a - b)`. -/
def sortAsc (l : List ℚ) : List ℚ := l.foldr insertSorted []

def listVariance (l : List ℚ) : ℚ :=
  (l.map fun v => (v - listMean l) ^ 2).sum / l.length

/-- The method `BPMDetector.calculateBPM`: integer bpm plus real-valued confidence
(the coefficient of variation involves a square root). -/
noncomputable def BPMDetector.calculateBPM (d : BPMDetector) : ℤ × ℝ :=
  if d.beatTimes.length < 4 then (120, 0)
  else
    let intervals := survivingIntervals d.beatTimes
    if intervals.length < 3 then (120, 0)
    else
      let sorted := sortAsc intervals
      let medianInterval := sorted.getD (sorted.length / 2) 0
      let bpm : ℤ := round ((60000 : ℚ) / medianInterval)
      let cv : ℝ := Real.sqrt (listVariance sorted) / (listMean sorted : ℚ)
      let confidence : ℝ := max 0 (min 1 (1 - cv * 2))
      (max 60 (min 200 bpm), confidence)

-- ## Transient detector (TransientDetector, lines 353-393)

structure TransientDetector where
  history : List ℚ
  lastValue : ℚ
deriving DecidableEq

def TransientDetector.initial : TransientDetector :=
  { history := [], lastValue := 0 }

/-- Average of the window with the current (last) sample excluded:
`history.slice(0, -1).reduce(...) / (windowSize - 1)`. -/
def prevWindowAvg (hist : List ℚ) : ℚ := hist.dropLast.sum / 7

def TransientDetector.detect (d : TransientDetector) (value : ℚ) : Bool × TransientDetector :=
  let hist := pushCapped d.history value 8
  if hist.length < 8 then
    (false, { history := hist, lastValue := value })
  else
    let ratio := value / (prevWindowAvg hist + 0.01)
    let instantDelta := value - d.lastValue
    (decide ( ratio > 2 ∧ value > 0.3 ∧ instantDelta > 0.15),
     { history := hist, lastValue := value })

/-- Run the detector over a sample sequence, collecting the result of each call. -/
def TransientDetector.run (d : TransientDetector) : List ℚ → List Bool × TransientDetector
| [] => ([], d)
| v :: vs =>
  let (fired, d1) := d.detect v
  let (rest, d2) := d1.run vs
  (fired :: rest, d2)

-- ## Lookahead buffer (AudioLookaheadBuffer, lines 397-498)

/-- Buffer state; the engine constructs it with `lookaheadMs = 200`,
`sampleRate = 60`, so `bufferSize = ceil(200/1000*60) = 12`. -/
structure AudioLookaheadBuffer where
  buffer : List AudioSample
  peakHistory : List ℚ
deriving DecidableEq

def AudioLookaheadBuffer.initial : AudioLookaheadBuffer :=
  { buffer := [], peakHistory := [] }

def bufferSize : Nat := 12

def AudioLookaheadBuffer.push (b : AudioLookaheadBuffer) (s : AudioSample) : AudioLookaheadBuffer :=
  let buf := b.buffer ++ [s]
  let buf := if bufferSize < buf.length then buf.tail else buf
  let ph := b.peakHistory ++ [s.energy]
  let ph := if 120 < ph.length then ph.tail else ph
  { buffer := buf, peakHistory := ph }

/-- The method `detectPeak()` examines the last three buffered samples, testing the
middle one (`curr = buffer[n-2]`) against `buffer[n-3]` and `buffer[n-1]`. -/
def AudioLookaheadBuffer.detectPeak (b : AudioLookaheadBuffer) : Bool :=
  match b.buffer.reverse with
  | last3 :: last2 :: last1 :: _ =>
    decide (last2.energy > last1.energy ∧ last2.energy > last3.energy ∧ last2.energy > 0.4)
  | _ => false

def AudioLookaheadBuffer.getCurrent (b : AudioLookaheadBuffer) : Option AudioSample :=
  b.buffer.getLast?

def AudioLookaheadBuffer.clear : AudioLookaheadBuffer :=
  { buffer := [], peakHistory := [] }

-- ## Engine state (KineticState, KineticEngine fields, lines 94-554)

structure KineticState where
  currentNode : KineticNodeId
  currentFrame : Option GeneratedFrame
  transitionProgress : ℚ
  transitionStyle : TransitionStyle
  sourceFrame : Option GeneratedFrame
  beatPos : ℚ
  barCounter : Nat
  phraseCounter : Nat
  lastTransitionTime : ℚ
  isLocked : Bool
  lockReleaseTime : ℚ
  sequenceMode : SequenceMode
deriving DecidableEq

/-- Mutable fields of `KineticEngine`.  `bpmConfidence` is real-valued
because `calculateBPM` produces a square root; `transitionHistory` entries
model the strings `` `${nodeId}@${now}` ``. -/
structure KineticEngine where
  state : KineticState
  framePool : KineticFramePool
  audioBuffer : AudioLookaheadBuffer
  bpm : ℚ
  beatDuration : ℚ
  lastBeatTime : ℚ
  bpmDetector : BPMDetector
  transientDetector : TransientDetector
  autoBPM : Bool
  bpmConfidence : ℝ
  transitionHistory : List (KineticNodeId × ℚ)
  lastPeakDetected : Bool
  lastTransientDetected : Bool

def initialKineticState : KineticState :=
  { currentNode := .idle, currentFrame := none, transitionProgress := 1
    transitionStyle := .CUT, sourceFrame := none, beatPos := 0
    barCounter := 0, phraseCounter := 0, lastTransitionTime := 0
    isLocked := false, lockReleaseTime := 0, sequenceMode := .GROOVE }

/-- The engine constructor. -/
def KineticEngine.initial : KineticEngine :=
  { state := initialKineticState
    framePool := emptyFramePool
    audioBuffer := AudioLookaheadBuffer.initial
    bpm := 120, beatDuration := 500, lastBeatTime := 0
    bpmDetector := BPMDetector.initial
    transientDetector := TransientDetector.initial
    autoBPM := true, bpmConfidence := 0
    transitionHistory := [], lastPeakDetected := false, lastTransientDetected := false }

-- ## Engine methods

def KineticEngine.setBPM (e : KineticEngine) (bpm : ℚ) : KineticEngine :=
  let b := max 60 (min 200 bpm)
  { e with bpm := b, beatDuration := 60000 / b }

def KineticEngine.loadFramePool (e : KineticEngine) (frames : List GeneratedFrame) : KineticEngine :=
  { e with framePool := buildFramePool frames }

/-- The method `feedAudio(bass, mid, high)`; `Date.now()` is the explicit `now`. -/
noncomputable def KineticEngine.feedAudio (e : KineticEngine) (bass mid high now : ℚ) : KineticEngine :=
  let energy := bass * 0.5 + mid * 0.3 + high * 0.2
  let buf := e.audioBuffer.push { bass := bass, mid := mid, high := high, energy := energy, timestamp := now }
  let td := e.transientDetector.detect (mid + high)
  let eBPM :=
    if e.autoBPM then
      let db := e.bpmDetector.detectBeat bass now
      if db.1 then
        let r := db.2.calculateBPM
        let e1 := { e with bpmDetector := db.2, bpmConfidence := r.2 }
        if r.2 > 0.5 then e1.setBPM (r.1 : ℚ) else e1
      else { e with bpmDetector := db.2 }
    else e
  { eBPM with
    audioBuffer := buf
    transientDetector := td.2
    lastTransientDetected := td.1
    lastPeakDetected := buf.detectPeak }

/-- JS `now % beatDuration` for the nonnegative operands the engine uses. -/
def jsMod (a b : ℚ) : ℚ := a - b * ⌊a / b⌋

def getTransitionSpeed : TransitionStyle → ℚ
| .CUT => 100
| .MORPH => 3
| .ZOOM_IN => 4
| .SLIDE => 6
| .SMOOTH => 1.5

def shouldTriggerOnBeat (s : KineticState) (bass : ℚ) : Bool :=
  decide (s.beatPos < 0.1 ∨ s.beatPos > 0.9) || decide (bass > 0.6)

def computeSequenceMode (pool : KineticFramePool) (s : KineticState)
    (bass _mid high : ℚ) : SequenceMode :=
  let isDrop := bass > 0.8
  let isPeak := high > 0.7
  let isFill := s.phraseCounter = 7
  let hasCloseups := ¬ pool.closeups.isEmpty
  let hasHands := ¬ pool.hands.isEmpty
  let hasFeet := ¬ pool.feet.isEmpty
  if isPeak ∧ hasCloseups then .EMOTE
  else if isDrop ∧ hasHands then .IMPACT
  else if 12 ≤ s.barCounter ∧ hasFeet then .FOOTWORK
  else if isFill then .IMPACT
  else .GROOVE

/-- The method `transitionTo(nodeId, now)`. -/
def KineticEngine.transitionTo (e : KineticEngine) (nodeId : KineticNodeId)
    (now : ℚ) (rng : ℕ) : KineticEngine :=
  let targetNode := KINETIC_GRAPH nodeId
  match targetNode.frameSelector e.framePool rng with
  | none => e
  | some frame =>
    let s := e.state
    let s1 :=
      { s with
        sourceFrame := s.currentFrame
        currentNode := nodeId
        currentFrame := some frame
        transitionProgress := 0
        transitionStyle := targetNode.preferredTransition
        lastTransitionTime := now
        isLocked := if targetNode.minDuration ≥ 500 then true else s.isLocked
        lockReleaseTime := if targetNode.minDuration ≥ 500 then now + targetNode.minDuration
                           else s.lockReleaseTime }
    let hist := e.transitionHistory ++ [(nodeId, now)]
    let hist := if 50 < hist.length then hist.tail else hist
    { e with state := s1, transitionHistory := hist }

/-- Successors of `n` whose energy requirement is met. -/
def validTransitions (n : KineticNodeId) (energy : ℚ) : List KineticNodeId :=
  (KINETIC_GRAPH n).possibleTransitions.filter
    fun nodeId => energy ≥ (KINETIC_GRAPH nodeId).energyRequirement

/-- The `switch (sequenceMode)` body selecting among the valid successors. -/
def selectTarget (mode : SequenceMode) (barCounter : Nat)
    (valid : List KineticNodeId) : KineticNodeId :=
  match mode with
  | .EMOTE =>
    if KineticNodeId.closeup ∈ valid then .closeup
    else if KineticNodeId.hands ∈ valid then .hands
    else valid.headD .idle
  | .IMPACT =>
    if KineticNodeId.impact ∈ valid then .impact
    else if KineticNodeId.mandala ∈ valid then .mandala
    else if KineticNodeId.jump ∈ valid then .jump
    else valid.headD .idle
  | .FOOTWORK =>
    if KineticNodeId.feet ∈ valid then .feet
    else if KineticNodeId.crouch ∈ valid then .crouch
    else valid.headD .idle
  | .GROOVE =>
    if barCounter % 2 = 0 then
      if KineticNodeId.groove_left ∈ valid then .groove_left
      else if KineticNodeId.groove_center ∈ valid then .groove_center
      else valid.headD .idle
    else
      if KineticNodeId.groove_right ∈ valid then .groove_right
      else if KineticNodeId.groove_center ∈ valid then .groove_center
      else valid.headD .idle

/-- The branch structure of `attemptTransition`: which node (if any) is
handed to `transitionTo`. -/
def attemptTransitionDecision (s : KineticState) (energy : ℚ) : Option KineticNodeId :=
  let valid := validTransitions s.currentNode energy
  if valid.isEmpty then
    if energy < (KINETIC_GRAPH s.currentNode).exitThreshold then some .idle else none
  else some (selectTarget s.sequenceMode s.barCounter valid)

def KineticEngine.attemptTransition (e : KineticEngine) (energy now : ℚ) (rng : ℕ) : KineticEngine :=
  match attemptTransitionDecision e.state energy with
  | none => e
  | some nodeId => e.transitionTo nodeId now rng

/-- Steps 1-3 of `update`: metronomic `beatPos`, transition-progress
advance, lock release. -/
def KineticEngine.updatePre (e : KineticEngine) (deltaTime now : ℚ) : KineticEngine :=
  let s0 := e.state
  let beatPos := jsMod now e.beatDuration / e.beatDuration
  let tp :=
    if s0.transitionProgress < 1 then
      let tp1 := s0.transitionProgress + getTransitionSpeed s0.transitionStyle * deltaTime
      if tp1 > 1 then 1 else tp1
    else s0.transitionProgress
  let locked := if s0.isLocked ∧ now ≥ s0.lockReleaseTime then false else s0.isLocked
  { e with state := { s0 with beatPos := beatPos, transitionProgress := tp, isLocked := locked } }

/-- Final step of `update`: bar/phrase counters on a beat boundary. -/
def KineticEngine.updateBarCounters (e : KineticEngine) (now : ℚ) : KineticEngine :=
  if e.state.beatPos < 0.1 ∧ e.lastBeatTime < now - e.beatDuration * 0.9 then
    { e with
      lastBeatTime := now
      state := { e.state with
        barCounter := (e.state.barCounter + 1) % 16
        phraseCounter := (e.state.phraseCounter + 1) % 8 } }
  else e

/-- The method `update(deltaTime)` with `Date.now()` and the random draw
explicit.  The `predictEnergy(200)` value the source computes is never read
afterwards, so it is omitted here. -/
def KineticEngine.update (e : KineticEngine) (deltaTime now : ℚ) (rng : ℕ) : KineticEngine :=
  let e1 := e.updatePre deltaTime now
  match e1.audioBuffer.getCurrent with
  | none => e1
  | some cur =>
    let e2 := { e1 with state :=
      { e1.state with
        sequenceMode := computeSequenceMode e1.framePool e1.state cur.bass cur.mid cur.high } }
    let e3 :=
      if shouldTriggerOnBeat e2.state cur.bass ∧ ¬ e2.state.isLocked ∧
          now - e2.state.lastTransitionTime ≥ (KINETIC_GRAPH e2.state.currentNode).minDuration then
        e2.attemptTransition cur.energy now rng
      else e2
    e3.updateBarCounters now

def KineticEngine.triggerGlitch (e : KineticEngine) (rng : ℕ) : KineticEngine :=
  match pickRandom e.framePool.byEnergyHigh rng with
  | none => e
  | some randomFrame =>
    { e with state :=
      { e.state with
        sourceFrame := e.state.currentFrame
        currentFrame := some randomFrame
        transitionProgress := 0
        transitionStyle := .CUT } }

def KineticEngine.getState (e : KineticEngine) : KineticState := e.state

def KineticEngine.getBPM (e : KineticEngine) : ℚ := e.bpm

def KineticEngine.resetDetectors (e : KineticEngine) : KineticEngine :=
  { e with
    bpmDetector := BPMDetector.initial
    transientDetector := TransientDetector.initial
    audioBuffer := AudioLookaheadBuffer.clear
    transitionHistory := []
    bpmConfidence := 0 }

/-- Iterated `update` calls: each entry is `(deltaTime, now, rng)`. -/
def KineticEngine.updates (e : KineticEngine) (calls : List (ℚ × ℚ × ℕ)) : KineticEngine :=
  calls.foldl (fun acc c => acc.update c.1 c.2.1 c.2.2) e

-- ## Spec-side definitions (used to state the claims themselves)

/-- Specification-side restatement of `calculateBPM`, following the words of
the spec: `{bpm:120, confidence:0}` whenever fewer than 4 beats are recorded
or fewer than 3 intervals survive the `[250,1500]` filter, otherwise
`bpm = round(60000/median)` clamped to `[60,200]` and
`confidence = clamp(1 − 2×coefficientOfVariation, 0, 1)`. -/
noncomputable def specCalculateBPM (d : BPMDetector) : ℤ × ℝ :=
  if d.beatTimes.length < 4 ∨ (survivingIntervals d.beatTimes).length < 3 then (120, 0)
  else
    let sorted := sortAsc (survivingIntervals d.beatTimes)
    let medianInterval := sorted.getD (sorted.length / 2) 0
    let cv : ℝ := Real.sqrt (listVariance sorted) / (listMean sorted : ℚ)
    (max 60 (min 200 (round ((60000 : ℚ) / medianInterval))),
     max 0 (min 1 (1 - 2 * cv)))

/-- The transient condition as the claim states it: full window, current value
exceeding 2.0× the average of the preceding 7 window values, exceeding the
previous raw sample by more than 0.15, and exceeding 0.3. -/
def claimTransientFire (d : TransientDetector) (value : ℚ) : Prop :=
  8 ≤ (pushCapped d.history value 8).length ∧
  value > 2 * prevWindowAvg (pushCapped d.history value 8) ∧
  value > 0.3 ∧ value - d.lastValue > 0.15

instance (d : TransientDetector) (value : ℚ) : Decidable (claimTransientFire d value) := by
  unfold claimTransientFire
  infer_instance

/-- The peak condition as the claim states it: the third-from-last buffered
energy value is a strict local maximum relative to its two neighbours (the
fourth-from-last and the second-from-last values) and exceeds 0.4. -/
def claimPeakAtThirdFromLast (b : AudioLookaheadBuffer) : Bool :=
  match b.buffer.reverse with
  | _last :: secondLast :: thirdLast :: rest =>
    decide ((∀ fourthLast ∈ rest.head?, thirdLast.energy > fourthLast.energy) ∧
      thirdLast.energy > secondLast.energy ∧ thirdLast.energy > 0.4)
  | _ => false

-- ## Concrete fixtures for witnesses and counterexamples

def fLow : GeneratedFrame :=
  { id := 0, energy := some .low, direction := some .center, ftype := .body
    mandalaPose := false, role := .base, isVirtual := false }

def fMid : GeneratedFrame :=
  { id := 1, energy := some .mid, direction := some .center, ftype := .body
    mandalaPose := false, role := .base, isVirtual := false }

def fHigh : GeneratedFrame :=
  { id := 2, energy := some .high, direction := some .center, ftype := .body
    mandalaPose := false, role := .base, isVirtual := false }

def fCloseup : GeneratedFrame :=
  { id := 3, energy := some .high, direction := some .center, ftype := .closeup
    mandalaPose := false, role := .base, isVirtual := false }

/-- Engine sitting in `groove_center` with a one-frame pool. -/
def engineAtGrooveCenter : KineticEngine :=
  { KineticEngine.initial with
    state := { initialKineticState with currentNode := .groove_center }
    framePool := buildFramePool [fLow] }

/-- Fresh engine whose pool contains one closeup frame. -/
def engineWithCloseup : KineticEngine :=
  { KineticEngine.initial with framePool := buildFramePool [fCloseup] }

def energySample (x : ℚ) : AudioSample :=
  { bass := 0, mid := 0, high := 0, energy := x, timestamp := 0 }

/-- Monotonic ramp from 0.1 to 0.9 in steps of 0.04 (the 20-step ramp of the spec). -/
def rampValues : List ℚ :=
  [0.1, 0.14, 0.18, 0.22, 0.26, 0.3, 0.34, 0.38, 0.42, 0.46, 0.5,
   0.54, 0.58, 0.62, 0.66, 0.7, 0.74, 0.78, 0.82, 0.86, 0.9]

/-- Seven quiet samples, the warm-up history for the transient examples. -/
def quietHistory : List ℚ := [0.1, 0.1, 0.1, 0.1, 0.1, 0.1, 0.1]

/-- Seven moderate samples for the transient counterexample. -/
def plateauHistory : List ℚ := [0.2, 0.2, 0.2, 0.2, 0.2, 0.2, 0.2]

-- ## Theorems

/-- C10: `resetDetectors()` clears only detector-side history (BPM beat
history, transient window, lookahead buffer, transition history, BPM
confidence); the `KineticState` and the adopted BPM are untouched, so
`getState()` and `getBPM()` agree before and after the call. -/
theorem resetDetectors_spec (e : KineticEngine) :
    e.resetDetectors.getState = e.getState ∧
    e.resetDetectors.getBPM = e.getBPM ∧
    e.resetDetectors.beatDuration = e.beatDuration ∧
    e.resetDetectors.autoBPM = e.autoBPM ∧
    e.resetDetectors.framePool = e.framePool ∧
    e.resetDetectors.bpmDetector = BPMDetector.initial ∧
    e.resetDetectors.transientDetector = TransientDetector.initial ∧
    e.resetDetectors.audioBuffer = AudioLookaheadBuffer.clear ∧
    e.resetDetectors.transitionHistory = [] ∧
    e.resetDetectors.bpmConfidence = 0 :=
  ⟨rfl, rfl, rfl, rfl, rfl, rfl, rfl, rfl, rfl, rfl⟩

/-- C6: when frame selection yields no frame — `transitionTo` whose target
selector returns none, or `triggerGlitch` with an empty high-energy bucket —
the operation is a complete no-op on the engine. -/
theorem frameSelection_none_noop :
    (∀ (e : KineticEngine) (d : KineticNodeId) (now : ℚ) (rng : ℕ),
      (KINETIC_GRAPH d).frameSelector e.framePool rng = none →
      e.transitionTo d now rng = e) ∧
    (∀ (e : KineticEngine) (rng : ℕ),
      e.framePool.byEnergyHigh = [] → e.triggerGlitch rng = e) := by
  constructor
  · intro e d now rng h
    simp only [KineticEngine.transitionTo, h]
  · intro e rng h
    unfold KineticEngine.triggerGlitch
    rw [h]
    rfl

/-- Witness for C6 at a fresh engine with an empty pool. -/
theorem frameSelection_none_noop_witness :
    KineticEngine.initial.transitionTo .hands 0 0 = KineticEngine.initial ∧
    KineticEngine.initial.triggerGlitch 0 = KineticEngine.initial :=
  ⟨frameSelection_none_noop.1 KineticEngine.initial .hands 0 0 rfl,
   frameSelection_none_noop.2 KineticEngine.initial 0 rfl⟩

/-- C5 counterexample: on a fresh engine the lookahead buffer is empty, yet
`update(1)` at `now = 100` changes `beatPos` from `0` to `1/5` — the state
returned by the empty-buffer tick is not identical to the previous state. -/
theorem update_noop_counterexample :
    KineticEngine.initial.audioBuffer.buffer = [] ∧
    KineticEngine.initial.state.beatPos = 0 ∧
    (KineticEngine.initial.update 1 100 0).state.beatPos = 1 / 5 := by
  refine ⟨rfl, rfl, ?_⟩
  norm_num [KineticEngine.update, KineticEngine.updatePre, KineticEngine.initial,
    initialKineticState, AudioLookaheadBuffer.getCurrent, AudioLookaheadBuffer.initial, jsMod]

/-- C5 amended: an `update` tick with an empty lookahead buffer leaves every
`KineticState` field unchanged except `beatPos` (recomputed metronomically),
`transitionProgress` (advanced) and `isLocked` (released when expired); the
audio-dependent steps are skipped. -/
theorem update_empty_buffer_amended :
    ∀ (e : KineticEngine) (dt now : ℚ) (rng : ℕ),
      e.audioBuffer.buffer = [] →
      (e.update dt now rng).state.currentNode = e.state.currentNode ∧
      (e.update dt now rng).state.currentFrame = e.state.currentFrame ∧
      (e.update dt now rng).state.sourceFrame = e.state.sourceFrame ∧
      (e.update dt now rng).state.transitionStyle = e.state.transitionStyle ∧
      (e.update dt now rng).state.barCounter = e.state.barCounter ∧
      (e.update dt now rng).state.phraseCounter = e.state.phraseCounter ∧
      (e.update dt now rng).state.lastTransitionTime = e.state.lastTransitionTime ∧
      (e.update dt now rng).state.lockReleaseTime = e.state.lockReleaseTime ∧
      (e.update dt now rng).state.sequenceMode = e.state.sequenceMode ∧
      (e.update dt now rng).state.beatPos = jsMod now e.beatDuration / e.beatDuration ∧
      (e.update dt now rng).bpm = e.bpm ∧
      (e.update dt now rng).framePool = e.framePool := by
  intro e dt now rng h
  have hc : e.audioBuffer.getCurrent = none := by
    unfold AudioLookaheadBuffer.getCurrent
    rw [h]
    rfl
  unfold KineticEngine.update
  simp [hc, KineticEngine.updatePre]

/-- Witness for the C5 amended theorem at the fresh engine. -/
theorem update_empty_buffer_amended_witness :
    (KineticEngine.initial.update 1 100 0).state.currentNode = KineticEngine.initial.state.currentNode ∧
    (KineticEngine.initial.update 1 100 0).state.currentFrame = KineticEngine.initial.state.currentFrame ∧
    (KineticEngine.initial.update 1 100 0).state.sourceFrame = KineticEngine.initial.state.sourceFrame ∧
    (KineticEngine.initial.update 1 100 0).state.transitionStyle = KineticEngine.initial.state.transitionStyle ∧
    (KineticEngine.initial.update 1 100 0).state.barCounter = KineticEngine.initial.state.barCounter ∧
    (KineticEngine.initial.update 1 100 0).state.phraseCounter = KineticEngine.initial.state.phraseCounter ∧
    (KineticEngine.initial.update 1 100 0).state.lastTransitionTime = KineticEngine.initial.state.lastTransitionTime ∧
    (KineticEngine.initial.update 1 100 0).state.lockReleaseTime = KineticEngine.initial.state.lockReleaseTime ∧
    (KineticEngine.initial.update 1 100 0).state.sequenceMode = KineticEngine.initial.state.sequenceMode ∧
    (KineticEngine.initial.update 1 100 0).state.beatPos =
      jsMod 100 KineticEngine.initial.beatDuration / KineticEngine.initial.beatDuration ∧
    (KineticEngine.initial.update 1 100 0).bpm = KineticEngine.initial.bpm ∧
    (KineticEngine.initial.update 1 100 0).framePool = KineticEngine.initial.framePool :=
  update_empty_buffer_amended KineticEngine.initial 1 100 0 rfl

/-- C3: `calculateBPM()` agrees everywhere with the formula stated by the
specification: `{120, 0}` when fewer than 4 beats are recorded or fewer than
3 inter-beat intervals survive the `[250,1500]` filter, otherwise the
clamped rounded median tempo with confidence `clamp(1 − 2·cv, 0, 1)`. -/
theorem calculateBPM_matches_spec (d : BPMDetector) :
    d.calculateBPM = specCalculateBPM d := by
  unfold BPMDetector.calculateBPM specCalculateBPM
  by_cases h1 : d.beatTimes.length < 4
  · simp [h1]
  · by_cases h2 : (survivingIntervals d.beatTimes).length < 3
    · simp [h1, h2]
    · simp only [h1, h2, or_self, if_false]
      rw [mul_comm]

-- ### Transient detector helper lemmas

theorem TransientDetector.run_nil (d : TransientDetector) : d.run [] = ([], d) := rfl

theorem TransientDetector.run_cons (d : TransientDetector) (v : ℚ) (vs : List ℚ) :
    d.run (v :: vs) =
      ((d.detect v).1 :: ((d.detect v).2.run vs).1, ((d.detect v).2.run vs).2) := rfl

theorem TransientDetector.detect_lastValue (d : TransientDetector) (v : ℚ) :
    (d.detect v).2.lastValue = v := by
  by_cases hl : (pushCapped d.history v 8).length < 8 <;>
    simp [TransientDetector.detect, hl]

theorem TransientDetector.detect_false_of_small_delta (d : TransientDetector) (v : ℚ)
    (h : v - d.lastValue ≤ 0.15) : (d.detect v).1 = false := by
  by_cases hl : (pushCapped d.history v 8).length < 8
  · simp [TransientDetector.detect, hl]
  · simp only [TransientDetector.detect, hl, if_false, decide_eq_false_iff_not]
    rintro ⟨-, -, h3⟩
    exact absurd h3 (not_lt.mpr h)

theorem TransientDetector.run_all_false (l : List ℚ) :
    ∀ d : TransientDetector, List.Chain (fun a b => b - a ≤ 0.15) d.lastValue l →
      ∀ x ∈ (d.run l).1, x = false := by
  induction l with
  | nil =>
    intro d _ x hx
    rw [TransientDetector.run_nil] at hx
    simp at hx
  | cons v vs ih =>
    intro d hchain x hx
    rw [List.chain_cons] at hchain
    rw [TransientDetector.run_cons] at hx
    rcases List.mem_cons.mp hx with hx | hx
    · rw [hx]
      exact TransientDetector.detect_false_of_small_delta d v hchain.1
    · refine ih (d.detect v).2 ?_ x hx
      rw [TransientDetector.detect_lastValue]
      exact hchain.2

theorem TransientDetector.detect_iff (d : TransientDetector) (v : ℚ)
    (hpos : 0 < prevWindowAvg (pushCapped d.history v 8) + 0.01) :
    ((d.detect v).1 = true ↔
      8 ≤ (pushCapped d.history v 8).length ∧
      v > 2 * (prevWindowAvg (pushCapped d.history v 8) + 0.01) ∧
      v > 0.3 ∧ v - d.lastValue > 0.15) := by
  by_cases hl : (pushCapped d.history v 8).length < 8
  · have h8 : ¬ 8 ≤ (pushCapped d.history v 8).length := by omega
    simp [TransientDetector.detect, hl, h8]
  · have h8 : 8 ≤ (pushCapped d.history v 8).length := Nat.le_of_not_lt hl
    simp only [TransientDetector.detect, hl, if_false, decide_eq_true_eq, h8, true_and]
    rw [gt_iff_lt, lt_div_iff₀ hpos]

/-- C7 counterexample: with the window at seven 0.2-values (reached by
running the fresh detector over them) and a next sample of 0.41, the three
claimed conditions all hold (0.41 > 2×0.2, delta 0.21 > 0.15, 0.41 > 0.3), yet
`detect` returns false — the ratio gate in the code divides by `prevAvg + 0.01`. -/
theorem transient_detect_counterexample :
    claimTransientFire { history := plateauHistory, lastValue := 0.2 } 0.41 ∧
    (TransientDetector.initial.run plateauHistory).2 =
      { history := plateauHistory, lastValue := 0.2 } ∧
    (TransientDetector.detect { history := plateauHistory, lastValue := 0.2 } 0.41).1 = false := by
  refine ⟨?_, rfl, ?_⟩
  · unfold claimTransientFire
    norm_num [pushCapped, prevWindowAvg, plateauHistory, List.dropLast]
  · have hl : ¬ (pushCapped plateauHistory 0.41 8).length < 8 := by
      norm_num [pushCapped, plateauHistory]
    simp only [TransientDetector.detect, hl, if_false, decide_eq_false_iff_not]
    norm_num [pushCapped, prevWindowAvg, plateauHistory, List.dropLast]

/-- C7 amended: `TransientDetector.detect(value)` returns true iff the
window is full (8 samples seen) and all three gates hold, where the ratio
gate is `value > 2.0 × (average of the preceding 7 window values + 0.01)`
(the 0.01 guards the division) rather than plain `2.0 × average`; it returns
false for every call before 8 samples, fires on 7 quiet values followed by a
0.9 spike, and never fires on the 0.04-step monotonic ramp. -/
theorem transient_detect_amended :
    (∀ (d : TransientDetector) (value : ℚ),
      0 < prevWindowAvg (pushCapped d.history value 8) + 0.01 →
      ((d.detect value).1 = true ↔
        8 ≤ (pushCapped d.history value 8).length ∧
        value > 2 * (prevWindowAvg (pushCapped d.history value 8) + 0.01) ∧
        value > 0.3 ∧ value - d.lastValue > 0.15)) ∧
    (TransientDetector.initial.run quietHistory).2 =
      { history := quietHistory, lastValue := 0.1 } ∧
    (TransientDetector.detect { history := quietHistory, lastValue := 0.1 } 0.9).1 = true ∧
    (∀ x ∈ (TransientDetector.initial.run rampValues).1, x = false) := by
  refine ⟨fun d value h => TransientDetector.detect_iff d value h, rfl, ?_, ?_⟩
  · have hl : ¬ (pushCapped quietHistory 0.9 8).length < 8 := by
      norm_num [pushCapped, quietHistory]
    simp only [TransientDetector.detect, hl, if_false, decide_eq_true_eq]
    norm_num [pushCapped, prevWindowAvg, quietHistory, List.dropLast]
  · refine TransientDetector.run_all_false rampValues TransientDetector.initial ?_
    simp only [rampValues, TransientDetector.initial, List.chain_cons, List.Chain.nil]
    norm_num

/-- Witness for the C7 amended theorem, instantiated at the spike input. -/
theorem transient_detect_amended_witness :
    (TransientDetector.detect { history := quietHistory, lastValue := 0.1 } 0.9).1 = true ↔
      8 ≤ (pushCapped quietHistory 0.9 8).length ∧
      (0.9 : ℚ) > 2 * (prevWindowAvg (pushCapped quietHistory 0.9 8) + 0.01) ∧
      (0.9 : ℚ) > 0.3 ∧ (0.9 : ℚ) - 0.1 > 0.15 :=
  transient_detect_amended.1 { history := quietHistory, lastValue := 0.1 } 0.9
    (by norm_num [pushCapped, prevWindowAvg, quietHistory, List.dropLast])

/-- C8 counterexample: for buffered energies `[0.9, 0, 0.9, 0.5]` the
implemented `detectPeak()` returns true (it tests the second-from-last value 0.9 against
0 and 0.5), while the claimed condition on the third-from-last value (0,
whose neighbours are 0.9 and 0.9) is false. -/
theorem detectPeak_counterexample :
    AudioLookaheadBuffer.detectPeak
      { buffer := [energySample 0.9, energySample 0, energySample 0.9, energySample 0.5],
        peakHistory := [] } = true ∧
    claimPeakAtThirdFromLast
      { buffer := [energySample 0.9, energySample 0, energySample 0.9, energySample 0.5],
        peakHistory := [] } = false := by
  constructor
  · simp only [AudioLookaheadBuffer.detectPeak, List.reverse, List.reverseAux,
      decide_eq_true_eq]
    norm_num [energySample]
  · simp only [claimPeakAtThirdFromLast, List.reverse, List.reverseAux,
      decide_eq_false_iff_not]
    norm_num [energySample]

/-- C8 amended: `detectPeak()` returns false whenever fewer than 3 samples
are buffered, and otherwise is true iff the second-from-last buffered energy
value strictly exceeds both the third-from-last and the last values and
exceeds 0.4. -/
theorem detectPeak_amended :
    (∀ b : AudioLookaheadBuffer, b.buffer.length < 3 → b.detectPeak = false) ∧
    (∀ (b : AudioLookaheadBuffer) (lastS secondLast thirdLast : AudioSample)
        (rest : List AudioSample),
      b.buffer.reverse = lastS :: secondLast :: thirdLast :: rest →
      (b.detectPeak = true ↔
        secondLast.energy > thirdLast.energy ∧ secondLast.energy > lastS.energy ∧
        secondLast.energy > 0.4)) := by
  constructor
  · intro b hlen
    unfold AudioLookaheadBuffer.detectPeak
    rcases hrev : b.buffer.reverse with _ | ⟨a, _ | ⟨c, _ | ⟨d, rest⟩⟩⟩
    · rfl
    · rfl
    · rfl
    · exfalso
      have := congrArg List.length hrev
      rw [List.length_reverse] at this
      simp at this
      omega
  · intro b lastS secondLast thirdLast rest hrev
    unfold AudioLookaheadBuffer.detectPeak
    rw [hrev]
    simp [decide_eq_true_eq]

/-- Witness for the C8 amended theorem at the test fixture `[0.2,0.3,0.8,0.4]`. -/
theorem detectPeak_amended_witness :
    AudioLookaheadBuffer.detectPeak
      { buffer := [energySample 0.2, energySample 0.3, energySample 0.8, energySample 0.4],
        peakHistory := [] } = true ↔
      (energySample 0.8).energy > (energySample 0.3).energy ∧
      (energySample 0.8).energy > (energySample 0.4).energy ∧
      (energySample 0.8).energy > 0.4 :=
  detectPeak_amended.2
    { buffer := [energySample 0.2, energySample 0.3, energySample 0.8, energySample 0.4],
      peakHistory := [] }
    (energySample 0.4) (energySample 0.8) (energySample 0.3) [energySample 0.2] rfl

-- ### Buffer push helper

theorem AudioLookaheadBuffer.push_getLast (b : AudioLookaheadBuffer) (s : AudioSample) :
    (b.push s).buffer.getLast? = some s := by
  unfold AudioLookaheadBuffer.push
  by_cases h : bufferSize < (b.buffer ++ [s]).length
  · simp only [h, if_true]
    rcases hb : b.buffer with _ | ⟨a, t⟩
    · rw [hb] at h
      simp [bufferSize] at h
    · simp only [List.cons_append, List.tail_cons]
      exact List.getLast?_concat t
  · simp only [h, if_false]
    exact List.getLast?_concat b.buffer

/-- C9 counterexample: `feedAudio(2, 0, 0)` stores the sample with
`bass = 2` untouched — no defensive clamp of the audio values to `[0,1]`
happens on ingestion. -/
theorem feedAudio_no_clamp_counterexample :
    (KineticEngine.initial.feedAudio 2 0 0 300).audioBuffer.buffer =
      [{ bass := 2, mid := 0, high := 0, energy := 1, timestamp := 300 }] ∧
    ¬ ((2 : ℚ) ≤ 1) := by
  constructor
  · norm_num [KineticEngine.feedAudio, AudioLookaheadBuffer.push, KineticEngine.initial,
      AudioLookaheadBuffer.initial, bufferSize, AudioSample.mk.injEq]
  · norm_num

/-- C9 amended: `setBPM` clamps every input to `[60,200]` (and recomputes
the beat duration from the clamped value), while `feedAudio` stores the raw
`bass`, `mid`, `high` values without clamping; the adopted BPM stays inside
`[60,200]` across `feedAudio` whenever it was in range before. -/
theorem setBPM_clamps_feedAudio_raw :
    (∀ (e : KineticEngine) (x : ℚ),
      60 ≤ (e.setBPM x).bpm ∧ (e.setBPM x).bpm ≤ 200 ∧
      (e.setBPM x).beatDuration = 60000 / (e.setBPM x).bpm) ∧
    (∀ (e : KineticEngine) (b m h now : ℚ),
      (e.feedAudio b m h now).audioBuffer.buffer.getLast? =
        some { bass := b, mid := m, high := h,
               energy := b * 0.5 + m * 0.3 + h * 0.2, timestamp := now }) ∧
    (∀ (e : KineticEngine) (b m h now : ℚ),
      60 ≤ e.bpm → e.bpm ≤ 200 →
      60 ≤ (e.feedAudio b m h now).bpm ∧ (e.feedAudio b m h now).bpm ≤ 200) := by
  refine ⟨?_, ?_, ?_⟩
  · intro e x
    refine ⟨le_max_left 60 (min 200 x), max_le (by norm_num) (min_le_left 200 x), rfl⟩
  · intro e b m h now
    simp only [KineticEngine.feedAudio]
    exact AudioLookaheadBuffer.push_getLast e.audioBuffer _
  · intro e b m h now h1 h2
    simp only [KineticEngine.feedAudio]
    by_cases ha : e.autoBPM
    · simp only [ha, if_true]
      by_cases hb : (e.bpmDetector.detectBeat b now).1 = true
      · simp only [hb, if_true]
        by_cases hc : ((e.bpmDetector.detectBeat b now).2.calculateBPM).2 > (0.5 : ℝ)
        · simp only [hc, if_true, KineticEngine.setBPM]
          exact ⟨le_max_left 60 _, max_le (by norm_num) (min_le_left 200 _)⟩
        · simp only [hc, if_false]
          exact ⟨h1, h2⟩
      · simp only [hb, if_false]
        exact ⟨h1, h2⟩
    · simp only [ha, if_false]
      exact ⟨h1, h2⟩

/-- Witness for the C9 amended theorem: a fresh engine (BPM 120) keeps its
BPM in range across a `feedAudio` call with out-of-range bass. -/
theorem setBPM_clamps_feedAudio_raw_witness :
    60 ≤ (KineticEngine.initial.feedAudio 2 0 0 300).bpm ∧
    (KineticEngine.initial.feedAudio 2 0 0 300).bpm ≤ 200 :=
  setBPM_clamps_feedAudio_raw.2.2 KineticEngine.initial 2 0 0 300
    (by norm_num [KineticEngine.initial]) (by norm_num [KineticEngine.initial])

-- ### Frame pool categorization lemmas

theorem catEnergy_byEnergy (p : KineticFramePool) (f : GeneratedFrame) :
    (catEnergy p f).byEnergyLow =
      p.byEnergyLow ++ (if f.energy = some EnergyLevel.low then [f] else []) ∧
    (catEnergy p f).byEnergyMid =
      p.byEnergyMid ++ (if f.energy = some EnergyLevel.mid then [f] else []) ∧
    (catEnergy p f).byEnergyHigh =
      p.byEnergyHigh ++ (if f.energy = some EnergyLevel.high then [f] else []) := by
  unfold catEnergy
  rcases he : f.energy with _ | e
  · simp [he]
  · cases e <;> simp [he]

theorem catDirection_byEnergy (p : KineticFramePool) (f : GeneratedFrame) :
    (catDirection p f).byEnergyLow = p.byEnergyLow ∧
    (catDirection p f).byEnergyMid = p.byEnergyMid ∧
    (catDirection p f).byEnergyHigh = p.byEnergyHigh := by
  unfold catDirection
  rcases f.direction with _ | d
  · exact ⟨rfl, rfl, rfl⟩
  · cases d <;> exact ⟨rfl, rfl, rfl⟩

theorem catType_byEnergy (p : KineticFramePool) (f : GeneratedFrame) :
    (catType p f).byEnergyLow = p.byEnergyLow ∧
    (catType p f).byEnergyMid = p.byEnergyMid ∧
    (catType p f).byEnergyHigh = p.byEnergyHigh := by
  unfold catType
  cases f.ftype
  · exact ⟨rfl, rfl, rfl⟩
  · exact ⟨rfl, rfl, rfl⟩
  · cases hm : f.mandalaPose <;> simp [hm]
  · exact ⟨rfl, rfl, rfl⟩

theorem catRole_byEnergy (p : KineticFramePool) (f : GeneratedFrame) :
    (catRole p f).byEnergyLow = p.byEnergyLow ∧
    (catRole p f).byEnergyMid = p.byEnergyMid ∧
    (catRole p f).byEnergyHigh = p.byEnergyHigh := by
  unfold catRole
  split <;> exact ⟨rfl, rfl, rfl⟩

theorem catVirtual_byEnergy (p : KineticFramePool) (f : GeneratedFrame) :
    (catVirtual p f).byEnergyLow = p.byEnergyLow ∧
    (catVirtual p f).byEnergyMid = p.byEnergyMid ∧
    (catVirtual p f).byEnergyHigh = p.byEnergyHigh := by
  unfold catVirtual
  split <;> exact ⟨rfl, rfl, rfl⟩

theorem categorizeFrame_byEnergy (p : KineticFramePool) (f : GeneratedFrame) :
    (categorizeFrame p f).byEnergyLow =
      p.byEnergyLow ++ (if f.energy = some EnergyLevel.low then [f] else []) ∧
    (categorizeFrame p f).byEnergyMid =
      p.byEnergyMid ++ (if f.energy = some EnergyLevel.mid then [f] else []) ∧
    (categorizeFrame p f).byEnergyHigh =
      p.byEnergyHigh ++ (if f.energy = some EnergyLevel.high then [f] else []) := by
  unfold categorizeFrame
  refine ⟨?_, ?_, ?_⟩
  · rw [(catVirtual_byEnergy _ f).1, (catRole_byEnergy _ f).1, (catType_byEnergy _ f).1,
      (catDirection_byEnergy _ f).1, (catEnergy_byEnergy p f).1]
  · rw [(catVirtual_byEnergy _ f).2.1, (catRole_byEnergy _ f).2.1, (catType_byEnergy _ f).2.1,
      (catDirection_byEnergy _ f).2.1, (catEnergy_byEnergy p f).2.1]
  · rw [(catVirtual_byEnergy _ f).2.2, (catRole_byEnergy _ f).2.2, (catType_byEnergy _ f).2.2,
      (catDirection_byEnergy _ f).2.2, (catEnergy_byEnergy p f).2.2]

theorem foldl_categorize_byEnergy (frames : List GeneratedFrame) :
    ∀ p : KineticFramePool,
      (frames.foldl categorizeFrame p).byEnergyLow =
        p.byEnergyLow ++ frames.filter (fun f => decide (f.energy = some EnergyLevel.low)) ∧
      (frames.foldl categorizeFrame p).byEnergyMid =
        p.byEnergyMid ++ frames.filter (fun f => decide (f.energy = some EnergyLevel.mid)) ∧
      (frames.foldl categorizeFrame p).byEnergyHigh =
        p.byEnergyHigh ++ frames.filter (fun f => decide (f.energy = some EnergyLevel.high)) := by
  induction frames with
  | nil => intro p; simp
  | cons f fs ih =>
    intro p
    refine ⟨?_, ?_, ?_⟩
    · rw [List.foldl_cons, (ih (categorizeFrame p f)).1, (categorizeFrame_byEnergy p f).1,
        List.filter_cons]
      by_cases hf : f.energy = some EnergyLevel.low <;> simp [hf]
    · rw [List.foldl_cons, (ih (categorizeFrame p f)).2.1, (categorizeFrame_byEnergy p f).2.1,
        List.filter_cons]
      by_cases hf : f.energy = some EnergyLevel.mid <;> simp [hf]
    · rw [List.foldl_cons, (ih (categorizeFrame p f)).2.2, (categorizeFrame_byEnergy p f).2.2,
        List.filter_cons]
      by_cases hf : f.energy = some EnergyLevel.high <;> simp [hf]

/-- C4 counterexample: loading a pool from a single low-energy frame leaves
the high-energy bucket empty — the back-fill chain never fills `high`, so
not every energy bucket is non-empty even though the input frame carries an
energy tag. -/
theorem loadFramePool_counterexample :
    fLow.energy = some EnergyLevel.low ∧ fLow ∈ [fLow] ∧
    (buildFramePool [fLow]).byEnergyLow = [fLow] ∧
    (buildFramePool [fLow]).byEnergyMid = [fLow] ∧
    (buildFramePool [fLow]).byEnergyHigh = [] :=
  ⟨rfl, List.mem_singleton.mpr rfl, rfl, rfl, rfl⟩

/-- C4 amended: `loadFramePool` back-fills only along low←mid and then
mid←low (plus center←mid for directions); consequently low and mid are
non-empty whenever some input frame carries a low or mid energy tag, while
the high bucket is exactly the high-tagged input frames and is never
back-filled. -/
theorem loadFramePool_backfill_amended :
    (∀ frames : List GeneratedFrame,
      (∃ f ∈ frames, f.energy = some EnergyLevel.low ∨ f.energy = some EnergyLevel.mid) →
      (buildFramePool frames).byEnergyLow ≠ [] ∧ (buildFramePool frames).byEnergyMid ≠ []) ∧
    (∀ frames : List GeneratedFrame,
      (buildFramePool frames).byEnergyHigh =
        frames.filter fun f => decide (f.energy = some EnergyLevel.high)) := by
  constructor
  · intro frames hex
    obtain ⟨hL, hM, _⟩ := foldl_categorize_byEnergy frames emptyFramePool
    rw [show emptyFramePool.byEnergyLow = [] from rfl, List.nil_append] at hL
    rw [show emptyFramePool.byEnergyMid = [] from rfl, List.nil_append] at hM
    have hor :
        (frames.foldl categorizeFrame emptyFramePool).byEnergyLow ≠ [] ∨
        (frames.foldl categorizeFrame emptyFramePool).byEnergyMid ≠ [] := by
      obtain ⟨f, hf, he | he⟩ := hex
      · left
        rw [hL]
        exact List.ne_nil_of_mem (List.mem_filter.mpr ⟨hf, by simp [he]⟩)
      · right
        rw [hM]
        exact List.ne_nil_of_mem (List.mem_filter.mpr ⟨hf, by simp [he]⟩)
    unfold buildFramePool
    dsimp only
    split_ifs with h1 h2 h3 <;> simp_all [List.isEmpty_iff] <;>
      (obtain ⟨x, hx, hxe⟩ | ⟨x, hx, hxe⟩ := hor
       exacts [h1 x hx hxe, h2 x hx hxe])
  · intro frames
    obtain ⟨_, _, hH⟩ := foldl_categorize_byEnergy frames emptyFramePool
    rw [show emptyFramePool.byEnergyHigh = [] from rfl, List.nil_append] at hH
    unfold buildFramePool
    dsimp only
    split_ifs <;> simpa using hH

/-- Witness for the C4 amended theorem with a single mid-tagged frame. -/
theorem loadFramePool_backfill_amended_witness :
    (buildFramePool [fMid]).byEnergyLow ≠ [] ∧ (buildFramePool [fMid]).byEnergyMid ≠ [] :=
  loadFramePool_backfill_amended.1 [fMid] ⟨fMid, List.mem_singleton.mpr rfl, Or.inr rfl⟩

-- ### Transition decision lemmas

theorem headD_mem_of_ne_nil (l : List KineticNodeId) (dflt : KineticNodeId)
    (h : l ≠ []) : l.headD dflt ∈ l := by
  cases l with
  | nil => exact absurd rfl h
  | cons a t => exact List.mem_cons_self a t

theorem selectTarget_mem (mode : SequenceMode) (bar : Nat) (valid : List KineticNodeId)
    (h : valid ≠ []) : selectTarget mode bar valid ∈ valid := by
  have hd := headD_mem_of_ne_nil valid KineticNodeId.idle h
  cases mode <;> simp only [selectTarget] <;> split_ifs <;> assumption

theorem validTransitions_sound (n : KineticNodeId) (energy : ℚ) (d : KineticNodeId)
    (hd : d ∈ validTransitions n energy) :
    d ∈ (KINETIC_GRAPH n).possibleTransitions ∧
      (KINETIC_GRAPH d).energyRequirement ≤ energy := by
  unfold validTransitions at hd
  have h := List.mem_filter.mp hd
  refine ⟨h.1, ?_⟩
  simpa [ge_iff_le] using h.2

/-- C1 counterexample: from `groove_center` at energy `0.1` no successor
qualifies and the energy is below the exit threshold, so the engine
force-transitions to `idle` — but `idle` is not a member of
`groove_center.possibleTransitions`, and the violating node is observable in
the state. -/
theorem attemptTransition_counterexample :
    engineAtGrooveCenter.state.currentNode = KineticNodeId.groove_center ∧
    (engineAtGrooveCenter.attemptTransition (1 / 10) 1000 0).state.currentNode =
      KineticNodeId.idle ∧
    KineticNodeId.idle ∉ (KINETIC_GRAPH KineticNodeId.groove_center).possibleTransitions := by
  have hdec : attemptTransitionDecision engineAtGrooveCenter.state (1 / 10) =
      some KineticNodeId.idle := by
    norm_num [attemptTransitionDecision, validTransitions, engineAtGrooveCenter,
      initialKineticState, KINETIC_GRAPH, List.filter]
  refine ⟨rfl, ?_, by decide⟩
  unfold KineticEngine.attemptTransition
  rw [hdec]
  rfl

/-- C1 amended: every node handed to `transitionTo` by `attemptTransition`
either is a permitted successor whose energy requirement is met, or is the
`idle` fall-back, taken exactly when no successor qualifies and the energy
is below the exit threshold of the current node; the observable `currentNode`
only ever changes to the decided node. -/
theorem attemptTransition_amended :
    (∀ (s : KineticState) (energy : ℚ) (d : KineticNodeId),
      attemptTransitionDecision s energy = some d →
      (d ∈ (KINETIC_GRAPH s.currentNode).possibleTransitions ∧
        (KINETIC_GRAPH d).energyRequirement ≤ energy) ∨
      (d = KineticNodeId.idle ∧ validTransitions s.currentNode energy = [] ∧
        energy < (KINETIC_GRAPH s.currentNode).exitThreshold)) ∧
    (∀ (e : KineticEngine) (energy now : ℚ) (rng : ℕ),
      (e.attemptTransition energy now rng).state.currentNode = e.state.currentNode ∨
      attemptTransitionDecision e.state energy =
        some (e.attemptTransition energy now rng).state.currentNode) := by
  constructor
  · intro s energy d hd
    unfold attemptTransitionDecision at hd
    dsimp only at hd
    by_cases hv : (validTransitions s.currentNode energy).isEmpty
    · rw [if_pos hv] at hd
      by_cases he : energy < (KINETIC_GRAPH s.currentNode).exitThreshold
      · rw [if_pos he] at hd
        injection hd with hd
        right
        exact ⟨hd.symm, List.isEmpty_iff.mp hv, he⟩
      · rw [if_neg he] at hd
        exact absurd hd (by simp)
    · rw [if_neg hv] at hd
      injection hd with hd
      left
      rw [← hd]
      exact validTransitions_sound _ _ _
        (selectTarget_mem _ _ _ (by simpa [List.isEmpty_iff] using hv))
  · intro e energy now rng
    unfold KineticEngine.attemptTransition
    rcases hdec : attemptTransitionDecision e.state energy with _ | d
    · exact Or.inl rfl
    · unfold KineticEngine.transitionTo
      rcases hsel : (KINETIC_GRAPH d).frameSelector e.framePool rng with _ | f
      · exact Or.inl (by simp [hsel])
      · exact Or.inr (by simp [hsel, hdec])

/-- Witness for the C1 amended theorem at the fall-back input. -/
theorem attemptTransition_amended_witness :
    (KineticNodeId.idle ∈ (KINETIC_GRAPH KineticNodeId.groove_center).possibleTransitions ∧
      (KINETIC_GRAPH KineticNodeId.idle).energyRequirement ≤ (1 / 10 : ℚ)) ∨
    (KineticNodeId.idle = KineticNodeId.idle ∧
      validTransitions KineticNodeId.groove_center (1 / 10) = [] ∧
      (1 / 10 : ℚ) < (KINETIC_GRAPH KineticNodeId.groove_center).exitThreshold) :=
  attemptTransition_amended.1
    { initialKineticState with currentNode := .groove_center } (1 / 10) KineticNodeId.idle
    (by norm_num [attemptTransitionDecision, validTransitions, initialKineticState,
      KINETIC_GRAPH, List.filter])

-- ### Lock mechanism lemmas

theorem KineticEngine.updates_nil (e : KineticEngine) : e.updates [] = e := rfl

theorem KineticEngine.updates_cons (e : KineticEngine) (c : ℚ × ℚ × ℕ)
    (cs : List (ℚ × ℚ × ℕ)) :
    e.updates (c :: cs) = (e.update c.1 c.2.1 c.2.2).updates cs := rfl

theorem transitionTo_state (e : KineticEngine) (d : KineticNodeId) (now : ℚ) (rng : ℕ)
    (f : GeneratedFrame) (hsel : (KINETIC_GRAPH d).frameSelector e.framePool rng = some f) :
    (e.transitionTo d now rng).state.currentNode = d ∧
    (e.transitionTo d now rng).state.lastTransitionTime = now ∧
    ((KINETIC_GRAPH d).minDuration ≥ 500 →
      (e.transitionTo d now rng).state.isLocked = true ∧
      (e.transitionTo d now rng).state.lockReleaseTime = now + (KINETIC_GRAPH d).minDuration) := by
  unfold KineticEngine.transitionTo
  refine ⟨?_, ?_, fun h500 => ⟨?_, ?_⟩⟩ <;> simp [hsel, *]

theorem update_locked_step (e : KineticEngine) (dt now : ℚ) (rng : ℕ)
    (hl : e.state.isLocked = true) (ht : now < e.state.lockReleaseTime) :
    (e.update dt now rng).state.isLocked = true ∧
    (e.update dt now rng).state.lockReleaseTime = e.state.lockReleaseTime ∧
    (e.update dt now rng).state.currentNode = e.state.currentNode ∧
    (e.update dt now rng).state.lastTransitionTime = e.state.lastTransitionTime := by
  unfold KineticEngine.update KineticEngine.updateBarCounters KineticEngine.updatePre
  have hcond : ¬ (e.state.isLocked = true ∧ now ≥ e.state.lockReleaseTime) := by
    rintro ⟨-, hge⟩
    exact absurd hge (not_le.mpr ht)
  dsimp only
  rw [if_neg hcond]
  rcases hcur : e.audioBuffer.getCurrent with _ | cur
  · simp [hcur, hl]
  · simp only [hcur, hl]
    split_ifs <;> simp_all

theorem attemptTransition_lastTransition (e : KineticEngine) (energy now : ℚ) (rng : ℕ) :
    ((e.attemptTransition energy now rng).state.isLocked = e.state.isLocked ∧
     (e.attemptTransition energy now rng).state.lastTransitionTime =
       e.state.lastTransitionTime) ∨
    (e.attemptTransition energy now rng).state.lastTransitionTime = now := by
  unfold KineticEngine.attemptTransition
  rcases attemptTransitionDecision e.state energy with _ | d
  · exact Or.inl ⟨rfl, rfl⟩
  · unfold KineticEngine.transitionTo
    rcases hsel : (KINETIC_GRAPH d).frameSelector e.framePool rng with _ | f
    · exact Or.inl (by simp [hsel])
    · exact Or.inr (by simp [hsel])

theorem updates_locked (calls : List (ℚ × ℚ × ℕ)) :
    ∀ e : KineticEngine, e.state.isLocked = true →
      (∀ c ∈ calls, c.2.1 < e.state.lockReleaseTime) →
      (e.updates calls).state.isLocked = true ∧
      (e.updates calls).state.lockReleaseTime = e.state.lockReleaseTime ∧
      (e.updates calls).state.currentNode = e.state.currentNode := by
  induction calls with
  | nil => intro e h1 _; exact ⟨h1, rfl, rfl⟩
  | cons c cs ih =>
    intro e h1 h2
    obtain ⟨l1, l2, l3, -⟩ :=
      update_locked_step e c.1 c.2.1 c.2.2 h1 (h2 c (List.mem_cons_self c cs))
    rw [KineticEngine.updates_cons]
    obtain ⟨m1, m2, m3⟩ := ih (e.update c.1 c.2.1 c.2.2) l1
      (fun c' hc' => by rw [l2]; exact h2 c' (List.mem_cons_of_mem c hc'))
    exact ⟨m1, by rw [m2, l2], by rw [m3, l3]⟩


theorem updateBarCounters_state (e : KineticEngine) (now : ℚ) :
    (e.updateBarCounters now).state.isLocked = e.state.isLocked ∧
    (e.updateBarCounters now).state.lockReleaseTime = e.state.lockReleaseTime ∧
    (e.updateBarCounters now).state.currentNode = e.state.currentNode ∧
    (e.updateBarCounters now).state.lastTransitionTime = e.state.lastTransitionTime := by
  unfold KineticEngine.updateBarCounters
  split_ifs <;> exact ⟨rfl, rfl, rfl, rfl⟩

theorem post_stage_lock (x : KineticEngine) (cond : Prop) [Decidable cond]
    (energy now : ℚ) (rng : ℕ) (hx : x.state.isLocked = false) :
    ((if cond then x.attemptTransition energy now rng else x).updateBarCounters
        now).state.isLocked = true →
    ((if cond then x.attemptTransition energy now rng else x).updateBarCounters
        now).state.lastTransitionTime = now := by
  obtain ⟨b1, -, -, b4⟩ :=
    updateBarCounters_state (if cond then x.attemptTransition energy now rng else x) now
  rw [b1, b4]
  split_ifs with hc
  · rcases attemptTransition_lastTransition x energy now rng with hsame | hnew
    · rw [hsame.1, hx]
      intro h
      cases h
    · intro _
      exact hnew
  · rw [hx]
    intro h
    cases h

theorem update_release_step (e : KineticEngine) (dt now : ℚ) (rng : ℕ)
    (hl : e.state.isLocked = true) (ht : e.state.lockReleaseTime ≤ now) :
    (e.update dt now rng).state.isLocked = true →
    (e.update dt now rng).state.lastTransitionTime = now := by
  have hpre_lock : (e.updatePre dt now).state.isLocked = false := by
    simp [KineticEngine.updatePre, hl, ht]
  unfold KineticEngine.update
  dsimp only
  rcases hcur : (e.updatePre dt now).audioBuffer.getCurrent with _ | cur
  · intro hLock
    rw [hpre_lock] at hLock
    cases hLock
  · exact post_stage_lock _ _ cur.energy now rng hpre_lock

/-- C2: transitioning into a node with `minDuration ≥ 500` at time `t0`
engages the lock until `t0 + minDuration`; every `update` tick queried
strictly before the release time reports `isLocked = true` and leaves the
current node (and the release time) untouched, whatever the audio or
sequence mode; at a tick at or after the release time the lock is dropped,
and any lock observed then can only come from a fresh transition performed
at that very tick. -/
theorem lock_semantics :
    (∀ (e : KineticEngine) (d : KineticNodeId) (t0 : ℚ) (rng : ℕ) (f : GeneratedFrame),
      (KINETIC_GRAPH d).frameSelector e.framePool rng = some f →
      (KINETIC_GRAPH d).minDuration ≥ 500 →
      (e.transitionTo d t0 rng).state.isLocked = true ∧
      (e.transitionTo d t0 rng).state.lockReleaseTime = t0 + (KINETIC_GRAPH d).minDuration ∧
      (e.transitionTo d t0 rng).state.currentNode = d) ∧
    (∀ (e : KineticEngine) (calls : List (ℚ × ℚ × ℕ)),
      e.state.isLocked = true →
      (∀ c ∈ calls, c.2.1 < e.state.lockReleaseTime) →
      (e.updates calls).state.isLocked = true ∧
      (e.updates calls).state.lockReleaseTime = e.state.lockReleaseTime ∧
      (e.updates calls).state.currentNode = e.state.currentNode) ∧
    (∀ (e : KineticEngine) (dt now : ℚ) (rng : ℕ),
      e.state.isLocked = true → e.state.lockReleaseTime ≤ now →
      ((e.update dt now rng).state.isLocked = true →
        (e.update dt now rng).state.lastTransitionTime = now)) := by
  refine ⟨?_, ?_, ?_⟩
  · intro e d t0 rng f hsel h500
    obtain ⟨h1, -, h3⟩ := transitionTo_state e d t0 rng f hsel
    obtain ⟨h4, h5⟩ := h3 h500
    exact ⟨h4, h5, h1⟩
  · intro e calls h1 h2
    exact updates_locked calls e h1 h2
  · intro e dt now rng h1 h2
    exact update_release_step e dt now rng h1 h2

/-- Witness for C2: a closeup transition at `t0 = 1000` locks until 1500;
two ticks at 1100 and 1400 stay locked in `closeup`; the tick at 1600
reports the lock released (no new transition happened at 1600, as the
`minDuration` gate blocks transitions until 1000+500). -/
theorem lock_semantics_witness :
    ((engineWithCloseup.transitionTo .closeup 1000 0).updates
        [(1, 1100, 0), (1, 1400, 0)]).state.isLocked = true ∧
    ((engineWithCloseup.transitionTo .closeup 1000 0).updates
        [(1, 1100, 0), (1, 1400, 0)]).state.currentNode = KineticNodeId.closeup := by
  have hA := lock_semantics.1 engineWithCloseup .closeup 1000 0 fCloseup rfl
    (by norm_num [KINETIC_GRAPH])
  have hcalls : ∀ c ∈ [((1 : ℚ), (1100 : ℚ), (0 : ℕ)), (1, 1400, 0)],
      c.2.1 < (engineWithCloseup.transitionTo .closeup 1000 0).state.lockReleaseTime := by
    rw [hA.2.1]
    intro c hc
    fin_cases hc <;> norm_num [KINETIC_GRAPH]
  have hB := lock_semantics.2.1 (engineWithCloseup.transitionTo .closeup 1000 0)
    [(1, 1100, 0), (1, 1400, 0)] hA.1 hcalls
  exact ⟨hB.1, by rw [hB.2.2, hA.2.2]⟩
